import Mathlib

/-!
Shallow embedding of the multi-cluster dispatch layer of
bjoydeep/kubernetes-mcp-server (pkg/acm/client.go and pkg/api/toolsets.go),
together with theorems settling the frozen claims about it.

Conventions of the embedding:
* Go strings are Lean `String`s; Go byte indices coincide with character
  indices because every concrete input used here is ASCII.
* The network is an explicit oracle `Net : HttpRequest → Except String
  HttpResponse`; a `Except.error` result models a transport-level error from
  `http.Client.Do`, an `Except.ok` result models a delivered HTTP response.
* Fallible Go functions return `Except String α` carrying the formatted
  error message.
-/

/-- HttpRequest models the observable parts of a Go `http.Request` built by
the proxy client: the method, the absolute URL, and the three headers the
code sets. -/
structure HttpRequest where
  method : String
  url : String
  authorization : Option String
  accept : Option String
  userAgent : Option String
  deriving Repr, DecidableEq

/-- HttpResponse models a Go `http.Response` as its status code and its
fully-read body. -/
structure HttpResponse where
  statusCode : Nat
  body : String
  deriving Repr, DecidableEq

/-- Net is the network oracle standing for `http.Client.Do`. -/
def Net : Type := HttpRequest → Except String HttpResponse

/-- ProxyClient embeds the `acm.ProxyClient` struct. The Go `http.Client`
field is represented by the two configuration values the constructor sets on
it: the request timeout in seconds and the TLS `InsecureSkipVerify` flag. -/
structure ProxyClient where
  timeoutSeconds : Nat
  tlsInsecureSkipVerify : Bool
  serverURL : String
  bearerToken : String
  proxyRouteHost : String
  deriving Repr, DecidableEq

/-- matchesAt s pat is true when pat is an initial segment of s
(Go `strings.HasPrefix` on the remainder of a slice). -/
def matchesAt : List Char → List Char → Bool
  | _, [] => true
  | [], _ :: _ => false
  | a :: s, b :: pat => a == b && matchesAt s pat

/-- findSub s pat returns the first index at which pat occurs inside s, or
none: Go `strings.Index` (−1 becomes `none`). -/
def findSub : List Char → List Char → Option Nat
  | s, pat =>
    if matchesAt s pat then some 0
    else match s with
      | [] => none
      | _ :: rest => (findSub rest pat).map (· + 1)

/-- parseRouteHost embeds `acm.parseRouteHost`: raw substring search for
`"spec":` and then, anywhere after it, `"host":"`, returning the text up to
the next double quote, or the empty string. -/
def parseRouteHost (jsonResponse : String) : String :=
  let s := jsonResponse.toList
  match findSub s ("\"spec\":".toList) with
  | none => ""
  | some idx =>
    let specPart := s.drop idx
    match findSub specPart ("\"host\":\"".toList) with
    | none => ""
    | some hostIdx =>
      let hostPart := specPart.drop (hostIdx + 8)
      match findSub hostPart ['"'] with
      | none => ""
      | some endIdx => String.mk (hostPart.take endIdx)

/-- trimSuffixSlash embeds Go `strings.TrimSuffix(serverURL, "/")`. -/
def trimSuffixSlash (s : String) : String :=
  if s.endsWith "/" then (s.toList.take (s.toList.length - 1)).asString else s

/-- discoveryRequest is the route-discovery request built by
`acm.discoverProxyRoute`: GET on the well-known cluster-proxy-addon-user
route in the multicluster-engine namespace, with bearer auth and JSON
accept. -/
def discoveryRequest (serverURL bearerToken : String) : HttpRequest :=
  { method := "GET"
    url := serverURL ++
      "/apis/route.openshift.io/v1/namespaces/multicluster-engine/routes/cluster-proxy-addon-user"
    authorization := some ("Bearer " ++ bearerToken)
    accept := some "application/json"
    userAgent := none }

/-- discoverProxyRoute embeds `acm.discoverProxyRoute`: on a network error,
a status other than 200, or a body from which parseRouteHost extracts
nothing, the client is returned unchanged (route stays unresolved); only a
200 body with an extractable host sets proxyRouteHost. -/
def ProxyClient.discoverProxyRoute (c : ProxyClient) (net : Net) : ProxyClient :=
  match net (discoveryRequest c.serverURL c.bearerToken) with
  | Except.error _ => c
  | Except.ok resp =>
    if resp.statusCode ≠ 200 then c
    else
      let route := parseRouteHost resp.body
      if route ≠ "" then { c with proxyRouteHost := route } else c

/-- NewProxyClient embeds `acm.NewProxyClient`: it unconditionally builds an
HTTP client with a 30 second timeout and `InsecureSkipVerify: true`, trims a
trailing slash from the server URL, and then runs route discovery. It is
total: no failure of discovery is surfaced at construction. -/
def NewProxyClient (serverURL bearerToken : String) (net : Net) : ProxyClient :=
  ProxyClient.discoverProxyRoute
    { timeoutSeconds := 30
      tlsInsecureSkipVerify := true
      serverURL := trimSuffixSlash serverURL
      bearerToken := bearerToken
      proxyRouteHost := "" }
    net

/-- buildProxyRequest embeds the request-construction phase of
`acm.ProxyClient.ProxyRequest`: it fails when the route is still
undiscovered, and otherwise issues a GET on
https://(route host)/(cluster)(apiPath) with bearer auth, JSON accept, and
the fixed user agent. -/
def ProxyClient.buildProxyRequest (c : ProxyClient) (cluster apiPath : String) :
    Except String HttpRequest :=
  if c.proxyRouteHost = "" then
    Except.error "cluster-proxy route not discovered - ensure ACM cluster-proxy addon is installed"
  else
    Except.ok
      { method := "GET"
        url := "https://" ++ c.proxyRouteHost ++ "/" ++ cluster ++ apiPath
        authorization := some ("Bearer " ++ c.bearerToken)
        accept := some "application/json"
        userAgent := some "kubernetes-mcp-server/acm-proxy" }

/-- proxyRequest embeds `acm.ProxyClient.ProxyRequest` end to end: build the
request, run it through the network oracle, wrap a transport error with the
cluster name, and turn a status of 400 or above into an error carrying the
status code, the cluster name, and the body. -/
def ProxyClient.proxyRequest (c : ProxyClient) (net : Net) (cluster apiPath : String) :
    Except String HttpResponse :=
  match c.buildProxyRequest cluster apiPath with
  | Except.error e => Except.error e
  | Except.ok req =>
    match net req with
    | Except.error e =>
      Except.error ("ACM proxy request failed for cluster " ++ cluster ++ ": " ++ e)
    | Except.ok resp =>
      if resp.statusCode ≥ 400 then
        Except.error ("ACM proxy returned " ++ toString resp.statusCode ++
          " for cluster " ++ cluster ++ ": " ++ resp.body)
      else Except.ok resp

/-- isUnreservedQueryChar lists the bytes Go `url.QueryEscape` leaves
unchanged: ASCII letters, digits, and the four marks - _ . ~ . -/
def isUnreservedQueryChar (c : Char) : Bool :=
  (('a' ≤ c && c ≤ 'z') || ('A' ≤ c && c ≤ 'Z') || ('0' ≤ c && c ≤ '9')
    || c == '-' || c == '_' || c == '.' || c == '~')

/-- hexDigit gives the upper-case hexadecimal digit for a value below 16. -/
def hexDigit (n : Nat) : Char :=
  if n < 10 then Char.ofNat ('0'.toNat + n) else Char.ofNat ('A'.toNat + (n - 10))

/-- queryEscape embeds Go `url.QueryEscape` restricted to ASCII input: a
space becomes +, unreserved bytes pass through, every other byte is
percent-encoded. -/
def queryEscape (s : String) : String :=
  String.mk (s.toList.foldr
    (fun c acc =>
      if c == ' ' then '+' :: acc
      else if isUnreservedQueryChar c then c :: acc
      else '%' :: hexDigit (c.toNat / 16) :: hexDigit (c.toNat % 16) :: acc)
    [])

/-- UrlModel represents a Go `url.URL` as the part before the first question
mark together with the decoded query parameters. -/
structure UrlModel where
  base : String
  params : List (String × String)
  deriving Repr, DecidableEq

/-- splitAtQuestionMark splits a character list at the first question mark;
the marker itself is dropped. -/
def splitAtQuestionMark : List Char → List Char × List Char
  | [] => ([], [])
  | c :: rest =>
    if c == '?' then ([], rest)
    else
      let p := splitAtQuestionMark rest
      (c :: p.1, p.2)

/-- parseQueryParams models `url.Values` parsing of a raw query: ampersand
separates pairs, the first equals sign in a pair separates key and value
(percent-decoding is elided; the inputs handled here are already decoded). -/
def parseQueryParams (raw : List Char) : List (String × String) :=
  if raw.isEmpty then []
  else
    (raw.splitOn '&').map (fun pair =>
      match pair.splitOn '=' with
      | [] => ("", "")
      | k :: rest => (String.mk k, String.intercalate "=" (rest.map String.mk)))

/-- urlParse models Go `url.Parse` on the URLs this code builds: split at
the first question mark into a base and a raw query. -/
def urlParse (s : String) : UrlModel :=
  let p := splitAtQuestionMark s.toList
  if s.toList.contains '?' then
    { base := String.mk p.1, params := parseQueryParams p.2 }
  else
    { base := s, params := [] }

/-- setParam models `url.Values.Set`: replace every binding of the key, or
append one. -/
def setParam (ps : List (String × String)) (k v : String) : List (String × String) :=
  if (ps.filter (fun p => p.1 == k)).isEmpty then ps ++ [(k, v)]
  else ps.map (fun p => if p.1 == k then (k, v) else p)

/-- joinAmp joins the encoded key-value pairs with ampersands. -/
def joinAmp : List String → String
  | [] => ""
  | [x] => x
  | x :: y :: rest => x ++ "&" ++ joinAmp (y :: rest)

/-- insertSorted inserts one key-value pair into a key-sorted list. -/
def insertSorted (x : String × String) : List (String × String) → List (String × String)
  | [] => [x]
  | y :: rest => if x.1 ≤ y.1 then x :: y :: rest else y :: insertSorted x rest

/-- sortParams sorts key-value pairs by key, modelling the key sorting of
`url.Values.Encode`. -/
def sortParams : List (String × String) → List (String × String)
  | [] => []
  | x :: rest => insertSorted x (sortParams rest)

/-- encodeQuery models `url.Values.Encode`: keys sorted, each pair escaped
and joined with ampersands. -/
def encodeQuery (ps : List (String × String)) : String :=
  joinAmp
    ((sortParams ps).map
      (fun p => queryEscape p.1 ++ "=" ++ queryEscape p.2))

/-- UrlModel.render models `url.URL.String` for these URLs: the base,
followed by a question mark and the encoded query only when the query is
non-empty. -/
def UrlModel.render (u : UrlModel) : String :=
  let q := encodeQuery u.params
  if q = "" then u.base else u.base ++ "?" ++ q

/-- buildProxyLogRequest embeds `acm.ProxyClient.ProxyLogRequest` up to the
network call: the log path uses the clusterstatuses scheme on the hub
server URL (not the discovered route host), the tailLines query parameter
is set only when tailLines is strictly positive, and the headers carry
bearer auth and a text/plain accept. -/
def ProxyClient.buildProxyLogRequest (c : ProxyClient)
    (cluster namespc pod container : String) (tailLines : Int) : HttpRequest :=
  let logPath := "/apis/proxy.open-cluster-management.io/v1beta1/namespaces/" ++ cluster ++
    "/clusterstatuses/" ++ cluster ++ "/log/" ++ namespc ++ "/" ++ pod ++ "/" ++ container
  let u := urlParse (c.serverURL ++ logPath)
  let q := if tailLines > 0 then setParam u.params "tailLines" (toString tailLines) else u.params
  { method := "GET"
    url := UrlModel.render { u with params := q }
    authorization := some ("Bearer " ++ c.bearerToken)
    accept := some "text/plain"
    userAgent := some "kubernetes-mcp-server/acm-proxy" }

/-- Json is the untyped document representation used to model
`encoding/json` values; numbers keep their source lexeme, which is all this
development needs. -/
inductive Json where
  | null : Json
  | boolean : Bool → Json
  | num : String → Json
  | str : String → Json
  | arr : List Json → Json
  | obj : List (String × Json) → Json
  deriving Repr

/-- isJsonWs recognises the four JSON whitespace characters. -/
def isJsonWs (c : Char) : Bool :=
  c == ' ' || c == '\t' || c == '\n' || c == '\r'

/-- skipWs drops leading JSON whitespace. -/
def skipWs : List Char → List Char
  | [] => []
  | c :: rest => if isJsonWs c then skipWs rest else c :: rest

/-- parseStringBody consumes the body of a JSON string after its opening
quote, treating a backslash as consuming the following character, and
returns the raw characters together with the rest of the input. -/
def parseStringBody : Nat → List Char → Option (List Char × List Char)
  | 0, _ => none
  | _, [] => none
  | fuel + 1, c :: rest =>
    if c == '"' then some ([], rest)
    else if c == '\\' then
      match rest with
      | [] => none
      | e :: rest2 =>
        (parseStringBody fuel rest2).map (fun p => (c :: e :: p.1, p.2))
    else (parseStringBody fuel rest).map (fun p => (c :: p.1, p.2))

/-- isNumChar recognises the characters that may appear in a JSON number
lexeme. -/
def isNumChar (c : Char) : Bool :=
  ('0' ≤ c && c ≤ '9') || c == '-' || c == '+' || c == '.' || c == 'e' || c == 'E'

/-- takeNumChars splits off a maximal run of number characters. -/
def takeNumChars : List Char → List Char × List Char
  | [] => ([], [])
  | c :: rest =>
    if isNumChar c then
      let p := takeNumChars rest
      (c :: p.1, p.2)
    else ([], c :: rest)

mutual

/-- parseJsonValue parses one JSON value from the input (leading whitespace
allowed), returning it with the unconsumed remainder, or none when the input
is not well-formed JSON. -/
def parseJsonValue : Nat → List Char → Option (Json × List Char)
  | 0, _ => none
  | fuel + 1, input =>
    match skipWs input with
    | [] => none
    | c :: rest =>
      if c == '"' then
        (parseStringBody fuel rest).map (fun p => (Json.str (String.mk p.1), p.2))
      else if c == '{' then
        parseJsonObject fuel (skipWs rest) true
      else if c == '[' then
        parseJsonArray fuel (skipWs rest) true
      else if c == 't' then
        if matchesAt rest ("rue".toList) then some (Json.boolean true, rest.drop 3) else none
      else if c == 'f' then
        if matchesAt rest "alse".toList then some (Json.boolean false, rest.drop 4) else none
      else if c == 'n' then
        if matchesAt rest "ull".toList then some (Json.null, rest.drop 3) else none
      else if isNumChar c then
        let p := takeNumChars (c :: rest)
        some (Json.num (String.mk p.1), p.2)
      else none

/-- parseJsonObject parses the members of an object after its opening brace
(first true when no member has been consumed yet). -/
def parseJsonObject : Nat → List Char → Bool → Option (Json × List Char)
  | 0, _, _ => none
  | fuel + 1, input, first =>
    match skipWs input with
    | [] => none
    | c :: rest =>
      if c == '}' && first then some (Json.obj [], rest)
      else
        match skipWs (c :: rest) with
        | '"' :: keyRest =>
          match parseStringBody fuel keyRest with
          | none => none
          | some (key, afterKey) =>
            match skipWs afterKey with
            | ':' :: afterColon =>
              match parseJsonValue fuel afterColon with
              | none => none
              | some (v, afterVal) =>
                match skipWs afterVal with
                | '}' :: afterObj => some (Json.obj [(String.mk key, v)], afterObj)
                | ',' :: afterComma =>
                  match parseJsonObject fuel afterComma false with
                  | some (Json.obj fields, afterAll) =>
                    some (Json.obj ((String.mk key, v) :: fields), afterAll)
                  | _ => none
                | _ => none
            | _ => none
        | _ => none

/-- parseJsonArray parses the elements of an array after its opening
bracket (first true when no element has been consumed yet). -/
def parseJsonArray : Nat → List Char → Bool → Option (Json × List Char)
  | 0, _, _ => none
  | fuel + 1, input, first =>
    match skipWs input with
    | [] => none
    | c :: rest =>
      if c == ']' && first then some (Json.arr [], rest)
      else
        match parseJsonValue fuel (c :: rest) with
        | none => none
        | some (v, afterVal) =>
          match skipWs afterVal with
          | ']' :: afterArr => some (Json.arr [v], afterArr)
          | ',' :: afterComma =>
            match parseJsonArray fuel afterComma false with
            | some (Json.arr elems, afterAll) => some (Json.arr (v :: elems), afterAll)
            | _ => none
          | _ => none

end

/-- parseJsonDoc parses a complete JSON document: one value followed only by
whitespace. It returns none exactly when the input is not a single valid
JSON document under this grammar. -/
def parseJsonDoc (s : String) : Option Json :=
  match parseJsonValue (s.length + 1) s.toList with
  | none => none
  | some (v, rest) => if (skipWs rest).isEmpty then some v else none

/-- GoValue models a Go `any` value held in a tool-argument map, with the
shapes JSON-decoded arguments can take. -/
inductive GoValue where
  | str : String → GoValue
  | num : Int → GoValue
  | boolean : Bool → GoValue
  | obj : List (String × GoValue) → GoValue
  | null : GoValue
  deriving Repr

/-- lookupArg models indexing a Go `map[string]any`; the argument map is
represented as an association list with distinct keys, first binding wins. -/
def lookupArg : List (String × GoValue) → String → Option GoValue
  | [], _ => none
  | (k, v) :: rest, key => if k == key then some v else lookupArg rest key

/-- ACMHandle models the untyped `interface{}` field `ACMProxyClient`: Go
nil, a value that implements the `ProxyRequest` interface (the real
`acm.ProxyClient`), or some other non-nil value that does not. -/
inductive ACMHandle where
  | nil : ACMHandle
  | proxy : ProxyClient → ACMHandle
  | other : ACMHandle
  deriving Repr

/-- ToolHandlerParams embeds the fields of `api.ToolHandlerParams` that the
dispatch layer reads: the caller-supplied argument map, the untyped ACM
proxy handle, and the ACM mode flag. -/
structure ToolHandlerParams where
  args : List (String × GoValue)
  acmProxyClient : ACMHandle
  isACMMode : Bool

/-- GetClusterParameter embeds `api.GetClusterParameter`: the value under
the reserved key cluster is honored exactly when it exists, is a string,
and is non-empty; every other case yields the pair of the empty string and
false. -/
def GetClusterParameter (params : ToolHandlerParams) : String × Bool :=
  match lookupArg params.args "cluster" with
  | some (GoValue.str clusterStr) =>
    if clusterStr ≠ "" then (clusterStr, true) else ("", false)
  | _ => ("", false)

/-- ShouldUseACMProxy embeds `api.ShouldUseACMProxy`: forwarding requires
ACM mode on and a non-nil proxy handle, then defers to
GetClusterParameter. -/
def ShouldUseACMProxy (params : ToolHandlerParams) : String × Bool :=
  if !params.isACMMode || params.acmProxyClient matches ACMHandle.nil then ("", false)
  else GetClusterParameter params

/-- ShouldUseACMProxyForLogs embeds `api.ShouldUseACMProxyForLogs`, which
repeats the same checks as ShouldUseACMProxy. -/
def ShouldUseACMProxyForLogs (params : ToolHandlerParams) : String × Bool :=
  if !params.isACMMode || params.acmProxyClient matches ACMHandle.nil then ("", false)
  else GetClusterParameter params

/-- GroupVersionKind embeds `schema.GroupVersionKind`. -/
structure GroupVersionKind where
  group : String
  version : String
  kind : String
  deriving Repr, DecidableEq

/-- ResourceListOptions models the field of
`internalk8s.ResourceListOptions` that the dispatch layer reads. -/
structure ResourceListOptions where
  labelSelector : String
  deriving Repr, DecidableEq

/-- camelLowerFrom embeds the rune loop of the default branch of
`api.kindToResourceName`: every upper-case ASCII letter at index i > 0 is
lowered; the character at index 0 is kept unchanged. -/
def camelLowerFrom : Nat → List Char → List Char
  | _, [] => []
  | i, r :: rest =>
    (if i > 0 && 'A' ≤ r && r ≤ 'Z' then Char.ofNat (r.toNat - 'A'.toNat + 'a'.toNat) else r)
      :: camelLowerFrom (i + 1) rest

/-- kindToResourceName embeds `api.kindToResourceName`: a fixed table of
built-in kinds, with a naive camel-case transform plus the letter s as the
fallback. -/
def kindToResourceName (kind : String) : String :=
  match kind with
  | "Pod" => "pods"
  | "Service" => "services"
  | "Deployment" => "deployments"
  | "Namespace" => "namespaces"
  | "Node" => "nodes"
  | "ConfigMap" => "configmaps"
  | "Secret" => "secrets"
  | "Event" => "events"
  | "ReplicaSet" => "replicasets"
  | "StatefulSet" => "statefulsets"
  | "DaemonSet" => "daemonsets"
  | "Ingress" => "ingresses"
  | "PersistentVolume" => "persistentvolumes"
  | "PersistentVolumeClaim" => "persistentvolumeclaims"
  | "ServiceAccount" => "serviceaccounts"
  | "Role" => "roles"
  | "RoleBinding" => "rolebindings"
  | "ClusterRole" => "clusterroles"
  | "ClusterRoleBinding" => "clusterrolebindings"
  | _ => String.mk (camelLowerFrom 0 kind.toList) ++ "s"

/-- buildListPath embeds the path construction of
`api.routeResourcesListThroughProxy`: group-dependent root, optional
namespace segment, resource segment, and a labelSelector query parameter
appended verbatim when the selector is non-empty. -/
def buildListPath (gvk : GroupVersionKind) (namespc : String)
    (options : ResourceListOptions) : String :=
  let apiPath :=
    if gvk.group.length = 0 then "/api/" ++ gvk.version
    else "/apis/" ++ gvk.group ++ "/" ++ gvk.version
  let apiPath :=
    if namespc ≠ "" then apiPath ++ "/namespaces/" ++ namespc else apiPath
  let apiPath := apiPath ++ "/" ++ kindToResourceName gvk.kind
  if options.labelSelector ≠ "" then
    apiPath ++ "?labelSelector=" ++ options.labelSelector
  else apiPath

/-- buildGetPath embeds the path construction of
`api.routeResourcesGetThroughProxy`: as for list, then the resource segment
and the name are appended. -/
def buildGetPath (gvk : GroupVersionKind) (namespc name : String) : String :=
  let apiPath :=
    if gvk.group.length = 0 then "/api/" ++ gvk.version
    else "/apis/" ++ gvk.group ++ "/" ++ gvk.version
  let apiPath :=
    if namespc ≠ "" then apiPath ++ "/namespaces/" ++ namespc else apiPath
  apiPath ++ "/" ++ kindToResourceName gvk.kind ++ "/" ++ name

/-- buildPodsListInNamespacePath embeds the path construction of
`api.routePodsListInNamespaceThroughProxy`. -/
def buildPodsListInNamespacePath (namespc : String) (options : ResourceListOptions) : String :=
  let apiPath := "/api/v1/namespaces/" ++ namespc ++ "/pods"
  if options.labelSelector ≠ "" then
    apiPath ++ "?labelSelector=" ++ options.labelSelector
  else apiPath

/-- buildPodsListInAllNamespacesPath embeds the path construction of
`api.routePodsListInAllNamespacesThroughProxy`. -/
def buildPodsListInAllNamespacesPath (options : ResourceListOptions) : String :=
  let apiPath := "/api/v1/pods"
  if options.labelSelector ≠ "" then
    apiPath ++ "?labelSelector=" ++ options.labelSelector
  else apiPath

/-- buildNamespacesListPath embeds the path construction of
`api.routeNamespacesListThroughProxy`. -/
def buildNamespacesListPath (options : ResourceListOptions) : String :=
  let apiPath := "/api/v1/namespaces"
  if options.labelSelector ≠ "" then
    apiPath ++ "?labelSelector=" ++ options.labelSelector
  else apiPath

/-- DispatchOutcome records where an operation entry point hands off:
localCall is delegation to the local `p.Kubernetes` client, proxied records
the cluster and API path passed to `makeProxyRequest` over the tunnel, and
errorOut is an error returned without contacting either cluster. -/
inductive DispatchOutcome where
  | localCall : DispatchOutcome
  | proxied : String → String → DispatchOutcome
  | errorOut : String → DispatchOutcome
  deriving Repr, DecidableEq

/-- routeResourcesListThroughProxy embeds
`api.ToolHandlerParams.routeResourcesListThroughProxy`: build the list path
and hand the cluster and path to makeProxyRequest. -/
def ToolHandlerParams.routeResourcesListThroughProxy (_ : ToolHandlerParams)
    (cluster : String) (gvk : GroupVersionKind) (namespc : String)
    (options : ResourceListOptions) : DispatchOutcome :=
  DispatchOutcome.proxied cluster (buildListPath gvk namespc options)

/-- routeResourcesGetThroughProxy embeds
`api.ToolHandlerParams.routeResourcesGetThroughProxy`: build the get path
and hand the cluster and path to makeProxyRequest. -/
def ToolHandlerParams.routeResourcesGetThroughProxy (_ : ToolHandlerParams)
    (cluster : String) (gvk : GroupVersionKind) (namespc name : String) : DispatchOutcome :=
  DispatchOutcome.proxied cluster (buildGetPath gvk namespc name)

/-- routeResourcesCreateOrUpdateThroughProxy embeds
`api.ToolHandlerParams.routeResourcesCreateOrUpdateThroughProxy`: an
immediate unsupported error; no request reaches either cluster. -/
def ToolHandlerParams.routeResourcesCreateOrUpdateThroughProxy (_ : ToolHandlerParams)
    (_cluster _resource : String) : DispatchOutcome :=
  DispatchOutcome.errorOut "create/update operations via ACM proxy not yet implemented"

/-- routeResourcesDeleteThroughProxy embeds
`api.ToolHandlerParams.routeResourcesDeleteThroughProxy`: an immediate
unsupported error; no request reaches either cluster. -/
def ToolHandlerParams.routeResourcesDeleteThroughProxy (_ : ToolHandlerParams)
    (_cluster : String) (_gvk : GroupVersionKind) (_namespc _name : String) : DispatchOutcome :=
  DispatchOutcome.errorOut "delete operations via ACM proxy not yet implemented"

/-- routePodsListInNamespaceThroughProxy embeds
`api.ToolHandlerParams.routePodsListInNamespaceThroughProxy`. -/
def ToolHandlerParams.routePodsListInNamespaceThroughProxy (_ : ToolHandlerParams)
    (cluster namespc : String) (options : ResourceListOptions) : DispatchOutcome :=
  DispatchOutcome.proxied cluster (buildPodsListInNamespacePath namespc options)

/-- routePodsListInAllNamespacesThroughProxy embeds
`api.ToolHandlerParams.routePodsListInAllNamespacesThroughProxy`. -/
def ToolHandlerParams.routePodsListInAllNamespacesThroughProxy (_ : ToolHandlerParams)
    (cluster : String) (options : ResourceListOptions) : DispatchOutcome :=
  DispatchOutcome.proxied cluster (buildPodsListInAllNamespacesPath options)

/-- routeNamespacesListThroughProxy embeds
`api.ToolHandlerParams.routeNamespacesListThroughProxy`. -/
def ToolHandlerParams.routeNamespacesListThroughProxy (_ : ToolHandlerParams)
    (cluster : String) (options : ResourceListOptions) : DispatchOutcome :=
  DispatchOutcome.proxied cluster (buildNamespacesListPath options)

/-- ResourcesList embeds the shadow method
`api.ToolHandlerParams.ResourcesList`: consult ShouldUseACMProxy, then
either proxy-route or delegate to the local Kubernetes client. -/
def ToolHandlerParams.ResourcesList (p : ToolHandlerParams) (gvk : GroupVersionKind)
    (namespc : String) (options : ResourceListOptions) : DispatchOutcome :=
  match ShouldUseACMProxy p with
  | (cluster, true) => p.routeResourcesListThroughProxy cluster gvk namespc options
  | (_, false) => DispatchOutcome.localCall

/-- ResourcesGet embeds the shadow method
`api.ToolHandlerParams.ResourcesGet`. -/
def ToolHandlerParams.ResourcesGet (p : ToolHandlerParams) (gvk : GroupVersionKind)
    (namespc name : String) : DispatchOutcome :=
  match ShouldUseACMProxy p with
  | (cluster, true) => p.routeResourcesGetThroughProxy cluster gvk namespc name
  | (_, false) => DispatchOutcome.localCall

/-- ResourcesCreateOrUpdate embeds the shadow method
`api.ToolHandlerParams.ResourcesCreateOrUpdate`. -/
def ToolHandlerParams.ResourcesCreateOrUpdate (p : ToolHandlerParams)
    (resource : String) : DispatchOutcome :=
  match ShouldUseACMProxy p with
  | (cluster, true) => p.routeResourcesCreateOrUpdateThroughProxy cluster resource
  | (_, false) => DispatchOutcome.localCall

/-- ResourcesDelete embeds the shadow method
`api.ToolHandlerParams.ResourcesDelete`. -/
def ToolHandlerParams.ResourcesDelete (p : ToolHandlerParams) (gvk : GroupVersionKind)
    (namespc name : String) : DispatchOutcome :=
  match ShouldUseACMProxy p with
  | (cluster, true) => p.routeResourcesDeleteThroughProxy cluster gvk namespc name
  | (_, false) => DispatchOutcome.localCall

/-- PodsListInNamespace embeds the shadow method
`api.ToolHandlerParams.PodsListInNamespace`. -/
def ToolHandlerParams.PodsListInNamespace (p : ToolHandlerParams)
    (namespc : String) (options : ResourceListOptions) : DispatchOutcome :=
  match ShouldUseACMProxy p with
  | (cluster, true) => p.routePodsListInNamespaceThroughProxy cluster namespc options
  | (_, false) => DispatchOutcome.localCall

/-- PodsListInAllNamespaces embeds the shadow method
`api.ToolHandlerParams.PodsListInAllNamespaces`. -/
def ToolHandlerParams.PodsListInAllNamespaces (p : ToolHandlerParams)
    (options : ResourceListOptions) : DispatchOutcome :=
  match ShouldUseACMProxy p with
  | (cluster, true) => p.routePodsListInAllNamespacesThroughProxy cluster options
  | (_, false) => DispatchOutcome.localCall

/-- NamespacesList embeds the shadow method
`api.ToolHandlerParams.NamespacesList`. -/
def ToolHandlerParams.NamespacesList (p : ToolHandlerParams)
    (options : ResourceListOptions) : DispatchOutcome :=
  match ShouldUseACMProxy p with
  | (cluster, true) => p.routeNamespacesListThroughProxy cluster options
  | (_, false) => DispatchOutcome.localCall

/-- PodsLog is the pod-logs operation entry point. Modelled from the spec:
the handler that fetches pod logs is not under src/ (only its routing
predicate `api.ShouldUseACMProxyForLogs` is); per the spec, every operation
entry point consults the routing predicate before acting and otherwise
delegates to the local client, the logs one through
ShouldUseACMProxyForLogs and the proxy log request. -/
def ToolHandlerParams.PodsLog (p : ToolHandlerParams)
    (namespc pod container : String) (tailLines : Int) : DispatchOutcome :=
  match ShouldUseACMProxyForLogs p with
  | (cluster, true) =>
    DispatchOutcome.proxied cluster
      ("/log/" ++ namespc ++ "/" ++ pod ++ "/" ++ container ++ "/" ++ toString tailLines)
  | (_, false) => DispatchOutcome.localCall

/-- castProxyClient models the runtime type assertion in
`api.ToolHandlerParams.makeProxyRequest` of the untyped handle to the
ProxyRequest interface. -/
def castProxyClient : ACMHandle → Option ProxyClient
  | ACMHandle.proxy c => some c
  | _ => none

/-- jsonLookup finds the value bound to a key among the members of a JSON
object (first binding wins, as `encoding/json` objects have distinct keys). -/
def jsonLookup : List (String × Json) → String → Option Json
  | [], _ => none
  | (k, v) :: rest, key => if k == key then some v else jsonLookup rest key

/-- parseUnstructured models `json.Unmarshal` into an
`unstructured.Unstructured`: the body must be a single valid JSON document,
its top level must be an object, and `UnstructuredJSONScheme.Decode`
additionally rejects an object whose kind field is absent, non-string, or
empty (`runtime.NewMissingKindErr`). -/
def parseUnstructured (body : String) : Except String Json :=
  match parseJsonDoc body with
  | none => Except.error "invalid JSON"
  | some (Json.obj fields) =>
    match jsonLookup fields "kind" with
    | some (Json.str k) =>
      if k ≠ "" then Except.ok (Json.obj fields)
      else Except.error ("Object Kind is missing in " ++ body)
    | _ => Except.error ("Object Kind is missing in " ++ body)
  | some _ => Except.error "cannot unmarshal non-object into Unstructured"

/-- makeProxyRequest embeds `api.ToolHandlerParams.makeProxyRequest`: cast
the untyped handle, run the proxy request, and decode the 2xx body into the
generic object, wrapping each failure with the message the code formats. -/
def ToolHandlerParams.makeProxyRequest (p : ToolHandlerParams) (net : Net)
    (cluster apiPath : String) : Except String Json :=
  match castProxyClient p.acmProxyClient with
  | none => Except.error "ACMProxyClient does not implement ProxyRequest method"
  | some proxyClient =>
    match proxyClient.proxyRequest net cluster apiPath with
    | Except.error e => Except.error ("ACM proxy request failed: " ++ e)
    | Except.ok resp =>
      match parseUnstructured resp.body with
      | Except.error e => Except.error ("failed to parse ACM proxy response: " ++ e)
      | Except.ok obj => Except.ok obj

/-- ForwardPred is the routing predicate of the specification: ACM mode
enabled, a configured (non-nil) tunnel handle, and a caller-supplied
cluster argument that is present and a non-empty string. -/
def ForwardPred (p : ToolHandlerParams) : Prop :=
  p.isACMMode = true ∧ ¬ (p.acmProxyClient matches ACMHandle.nil) ∧
    ∃ s, lookupArg p.args "cluster" = some (GoValue.str s) ∧ s ≠ ""

/-- urlEncode is percent-encoding of a query value as the claim words it:
unreserved bytes (letters, digits, - _ . ~) pass through, every other byte
becomes a percent escape. -/
def urlEncode (s : String) : String :=
  String.mk (s.toList.foldr
    (fun c acc =>
      if isUnreservedQueryChar c then c :: acc
      else '%' :: hexDigit (c.toNat / 16) :: hexDigit (c.toNat % 16) :: acc)
    [])

/-- pluralTable is the fixed kind-to-REST-plural table named by the
specification, as an association list. -/
def pluralTable : List (String × String) :=
  [("Pod", "pods"), ("Service", "services"), ("Deployment", "deployments"),
   ("Namespace", "namespaces"), ("Node", "nodes"), ("ConfigMap", "configmaps"),
   ("Secret", "secrets"), ("Event", "events"), ("ReplicaSet", "replicasets"),
   ("StatefulSet", "statefulsets"), ("DaemonSet", "daemonsets"),
   ("Ingress", "ingresses"), ("PersistentVolume", "persistentvolumes"),
   ("PersistentVolumeClaim", "persistentvolumeclaims"),
   ("ServiceAccount", "serviceaccounts"), ("Role", "roles"),
   ("RoleBinding", "rolebindings"), ("ClusterRole", "clusterroles"),
   ("ClusterRoleBinding", "clusterrolebindings")]

/-- asciiLowerChar lowercases one upper-case ASCII letter and leaves every
other character unchanged. -/
def asciiLowerChar (c : Char) : Char :=
  if 'A' ≤ c ∧ c ≤ 'Z' then Char.ofNat (c.toNat - 'A'.toNat + 'a'.toNat) else c

/-- claimResourceSegment is the resource segment exactly as the claim words
it: the fixed-table plural, and for kinds absent from the table the kind
lower-cased with the letter s appended. -/
def claimResourceSegment (kind : String) : String :=
  match List.lookup kind pluralTable with
  | some plural => plural
  | none => String.mk (kind.toList.map asciiLowerChar) ++ "s"

/-- amendedResourceSegment is the resource segment as the code actually
computes it, worded independently: the fixed-table plural, and for kinds
absent from the table the kind with its first character kept unchanged,
every later upper-case ASCII letter lowercased, and the letter s
appended. -/
def amendedResourceSegment (kind : String) : String :=
  match List.lookup kind pluralTable with
  | some plural => plural
  | none =>
    (match kind.toList with
     | [] => ""
     | c :: rest => String.mk (c :: rest.map asciiLowerChar)) ++ "s"

/-- claimListPath is the list path exactly as the claim words it, with the
label selector value URL-encoded. -/
def claimListPath (gvk : GroupVersionKind) (namespc : String)
    (options : ResourceListOptions) : String :=
  (if gvk.group = "" then "/api/" ++ gvk.version
   else "/apis/" ++ gvk.group ++ "/" ++ gvk.version) ++
  (if namespc ≠ "" then "/namespaces/" ++ namespc else "") ++
  "/" ++ claimResourceSegment gvk.kind ++
  (if options.labelSelector ≠ "" then "?labelSelector=" ++ urlEncode options.labelSelector
   else "")

/-- amendedListPath is the list path as amended: identical to the claim
except that the label selector value is appended verbatim and the fallback
resource segment keeps the first character of the kind unchanged. -/
def amendedListPath (gvk : GroupVersionKind) (namespc : String)
    (options : ResourceListOptions) : String :=
  (if gvk.group = "" then "/api/" ++ gvk.version
   else "/apis/" ++ gvk.group ++ "/" ++ gvk.version) ++
  (if namespc ≠ "" then "/namespaces/" ++ namespc else "") ++
  "/" ++ amendedResourceSegment gvk.kind ++
  (if options.labelSelector ≠ "" then "?labelSelector=" ++ options.labelSelector
   else "")

/-- amendedGetPath is the get path as amended: as amendedListPath without a
selector, with the resource name appended. -/
def amendedGetPath (gvk : GroupVersionKind) (namespc name : String) : String :=
  (if gvk.group = "" then "/api/" ++ gvk.version
   else "/apis/" ++ gvk.group ++ "/" ++ gvk.version) ++
  (if namespc ≠ "" then "/namespaces/" ++ namespc else "") ++
  "/" ++ amendedResourceSegment gvk.kind ++ "/" ++ name

/-- specExtractHost is the route-host extraction as the claim words it: the
value of the host field of the top-level spec member of the document, and
nothing else; none is Unresolved. -/
def specExtractHost (body : String) : Option String :=
  match parseJsonDoc body with
  | some (Json.obj fields) =>
    match jsonLookup fields "spec" with
    | some (Json.obj specFields) =>
      match jsonLookup specFields "host" with
      | some (Json.str h) => some h
      | _ => none
    | _ => none
  | _ => none

/-- sampleProxyClient is a concrete client with a discovered route, used to
instantiate theorems with hypotheses. -/
def sampleProxyClient : ProxyClient :=
  { timeoutSeconds := 30
    tlsInsecureSkipVerify := true
    serverURL := "https://hub.example.com"
    bearerToken := "tok"
    proxyRouteHost := "proxy.example.com" }

/-- sampleForwardParams is a concrete parameter record in ACM mode with a
configured proxy handle and a non-empty cluster argument. -/
def sampleForwardParams : ToolHandlerParams :=
  { args := [("cluster", GoValue.str "c1")]
    acmProxyClient := ACMHandle.proxy sampleProxyClient
    isACMMode := true }

/-- sampleNonStringParams is a concrete parameter record in ACM mode whose
cluster argument is bound to a number rather than a string. -/
def sampleNonStringParams : ToolHandlerParams :=
  { args := [("cluster", GoValue.num 42)]
    acmProxyClient := ACMHandle.proxy sampleProxyClient
    isACMMode := true }

/-- refusedNet is a network oracle on which every request fails at the
transport level. -/
def refusedNet : Net := fun _ => Except.error "connection refused"

/-- constNet is a network oracle answering every request with one fixed
response. -/
def constNet (resp : HttpResponse) : Net := fun _ => Except.ok resp

/-- routeBodyGood is the well-formed route body of the claim. -/
def routeBodyGood : String := "\x7b\"spec\":\x7b\"host\":\"proxy.example.com\"\x7d\x7d"

/-- routeBodyNested is a route body whose top-level spec member has no host
field, while a substructure nested inside spec does. -/
def routeBodyNested : String :=
  "\x7b\"spec\":\x7b\"config\":\x7b\"host\":\"evil.example.com\"\x7d\x7d,\"other\":1\x7d"

/-- camelLowerFrom_pos shows that from index one on, the rune loop of the
kindToResourceName fallback is exactly an ASCII lowercasing map. -/
theorem camelLowerFrom_pos (l : List Char) (i : Nat) (h : 0 < i) :
    camelLowerFrom i l = l.map asciiLowerChar := by
  induction l generalizing i with
  | nil => rfl
  | cons c rest ih =>
    simp only [camelLowerFrom, List.map]
    congr 1
    · by_cases hc : 'A' ≤ c ∧ c ≤ 'Z'
      · simp [asciiLowerChar, hc, show decide (i > 0) = true from by simpa using h, hc.1, hc.2]
      · simp only [asciiLowerChar, if_neg hc]
        rw [if_neg]
        intro hcontra
        simp only [Bool.and_eq_true, decide_eq_true_eq] at hcontra
        exact hc ⟨hcontra.1.2, hcontra.2⟩
    · exact ih (i + 1) (Nat.succ_pos i)

/-- kindToResourceName_eq_amended identifies the resource-segment function
of the code with its table-plus-fallback description. -/
theorem kindToResourceName_eq_amended (kind : String) :
    kindToResourceName kind = amendedResourceSegment kind := by
  unfold kindToResourceName amendedResourceSegment
  split
  all_goals try rfl
  rename_i h1 h2 h3 h4 h5 h6 h7 h8 h9 h10 h11 h12 h13 h14 h15 h16 h17 h18 h19
  have hlk : List.lookup kind pluralTable = none := by
    simp only [pluralTable, List.lookup,
      show (kind == "Pod") = false from beq_eq_false_iff_ne.mpr h1,
      show (kind == "Service") = false from beq_eq_false_iff_ne.mpr h2,
      show (kind == "Deployment") = false from beq_eq_false_iff_ne.mpr h3,
      show (kind == "Namespace") = false from beq_eq_false_iff_ne.mpr h4,
      show (kind == "Node") = false from beq_eq_false_iff_ne.mpr h5,
      show (kind == "ConfigMap") = false from beq_eq_false_iff_ne.mpr h6,
      show (kind == "Secret") = false from beq_eq_false_iff_ne.mpr h7,
      show (kind == "Event") = false from beq_eq_false_iff_ne.mpr h8,
      show (kind == "ReplicaSet") = false from beq_eq_false_iff_ne.mpr h9,
      show (kind == "StatefulSet") = false from beq_eq_false_iff_ne.mpr h10,
      show (kind == "DaemonSet") = false from beq_eq_false_iff_ne.mpr h11,
      show (kind == "Ingress") = false from beq_eq_false_iff_ne.mpr h12,
      show (kind == "PersistentVolume") = false from beq_eq_false_iff_ne.mpr h13,
      show (kind == "PersistentVolumeClaim") = false from beq_eq_false_iff_ne.mpr h14,
      show (kind == "ServiceAccount") = false from beq_eq_false_iff_ne.mpr h15,
      show (kind == "Role") = false from beq_eq_false_iff_ne.mpr h16,
      show (kind == "RoleBinding") = false from beq_eq_false_iff_ne.mpr h17,
      show (kind == "ClusterRole") = false from beq_eq_false_iff_ne.mpr h18,
      show (kind == "ClusterRoleBinding") = false from beq_eq_false_iff_ne.mpr h19]
  rw [hlk]
  cases hk : kind.toList with
  | nil => simp [camelLowerFrom]
  | cons c rest =>
    simp only [camelLowerFrom, show decide (0 > 0) = false from rfl, Bool.false_and,
      Bool.if_false_left]
    rw [camelLowerFrom_pos rest 1 Nat.one_pos]
    simp

/-- string_length_zero_iff relates the two spellings of string emptiness
used by the code and by the reference definitions. -/
theorem string_length_zero_iff (s : String) : s.length = 0 ↔ s = "" := by
  cases s with
  | mk data =>
    cases data with
    | nil => simp
    | cons c rest =>
      constructor
      · intro h
        exact absurd h (by simp [String.length])
      · intro h
        exact absurd (congrArg String.data h) (by simp)

/-- urlParse_no_query evaluates the URL model parser on an input without a
question mark. -/
theorem urlParse_no_query (s : String) (h : s.toList.contains '?' = false) :
    urlParse s = { base := s, params := [] } := by
  unfold urlParse
  rw [h]
  simp

/-- render_nil evaluates URL rendering with no query parameters. -/
theorem render_nil (b : String) : UrlModel.render { base := b, params := [] } = b := by
  simp [UrlModel.render, encodeQuery, joinAmp]

/-- render_single evaluates URL rendering with exactly one query
parameter. -/
theorem render_single (b k v : String) :
    UrlModel.render { base := b, params := [(k, v)] } =
      b ++ "?" ++ (queryEscape k ++ "=" ++ queryEscape v) := by
  have hne : queryEscape k ++ "=" ++ queryEscape v ≠ "" := by
    intro heq
    have hlen := congrArg String.length heq
    rw [String.length_append, String.length_append] at hlen
    rw [show ("=" : String).length = 1 from rfl, show ("" : String).length = 0 from rfl] at hlen
    omega
  unfold UrlModel.render encodeQuery
  show (if joinAmp [queryEscape k ++ "=" ++ queryEscape v] = "" then b
    else b ++ "?" ++ joinAmp [queryEscape k ++ "=" ++ queryEscape v]) = _
  rw [show joinAmp [queryEscape k ++ "=" ++ queryEscape v] =
    queryEscape k ++ "=" ++ queryEscape v from rfl]
  rw [if_neg hne]

/-- buildProxyLogRequest_url computes the URL of a proxied log request when
the hub URL and path segments contain no question mark: the clusterstatuses
log path on the hub server URL, with a tailLines parameter exactly when
tailLines is strictly positive. -/
theorem buildProxyLogRequest_url (c : ProxyClient) (cluster namespc pod container : String)
    (tailLines : Int)
    (hq : ((c.serverURL ++ ("/apis/proxy.open-cluster-management.io/v1beta1/namespaces/" ++
      cluster ++ "/clusterstatuses/" ++ cluster ++ "/log/" ++ namespc ++ "/" ++ pod ++ "/" ++
      container)).toList.contains '?') = false) :
    (c.buildProxyLogRequest cluster namespc pod container tailLines).url =
      c.serverURL ++ ("/apis/proxy.open-cluster-management.io/v1beta1/namespaces/" ++ cluster ++
        "/clusterstatuses/" ++ cluster ++ "/log/" ++ namespc ++ "/" ++ pod ++ "/" ++ container) ++
        (if 0 < tailLines then "?tailLines=" ++ queryEscape (toString tailLines) else "") := by
  simp only [ProxyClient.buildProxyLogRequest]
  rw [urlParse_no_query _ hq]
  by_cases ht : tailLines > 0
  · rw [if_pos ht, if_pos ht]
    rw [show setParam [] "tailLines" (toString tailLines) =
      [("tailLines", toString tailLines)] from rfl]
    show UrlModel.render _ = _
    rw [render_single]
    rw [show queryEscape "tailLines" = "tailLines" from rfl]
    rw [String.append_assoc]
    rfl
  · rw [if_neg ht, if_neg ht]
    show UrlModel.render _ = _
    rw [render_nil]
    simp

/-- shouldUse_snd_iff characterises the routing predicate: ShouldUseACMProxy
answers true exactly under ForwardPred. -/
theorem shouldUse_snd_iff (p : ToolHandlerParams) :
    (ShouldUseACMProxy p).2 = true ↔ ForwardPred p := by
  unfold ShouldUseACMProxy ForwardPred GetClusterParameter
  cases hm : p.isACMMode <;> cases hh : p.acmProxyClient <;> simp [hm, hh]
  all_goals {
    cases hl : lookupArg p.args "cluster" with
    | none => simp [hl]
    | some v =>
      cases v <;> simp [hl]
      rename_i s
      by_cases hs : s = "" <;> simp [hs]
  }

/-- shouldUse_eq_true_elim extracts ForwardPred from a positive routing
answer. -/
theorem shouldUse_eq_true_elim (p : ToolHandlerParams) (c : String)
    (h : ShouldUseACMProxy p = (c, true)) : ForwardPred p := by
  rw [← shouldUse_snd_iff, h]

/-- forwardPred_shouldUse produces a positive routing answer from
ForwardPred. -/
theorem forwardPred_shouldUse (p : ToolHandlerParams) (h : ForwardPred p) :
    ∃ c, ShouldUseACMProxy p = (c, true) := by
  have hs := (shouldUse_snd_iff p).mpr h
  exact ⟨(ShouldUseACMProxy p).1, by rw [← hs]⟩

/-- discoverProxyRoute_fields shows route discovery never changes any field
of the client other than the discovered route host. -/
theorem discoverProxyRoute_fields (c : ProxyClient) (net : Net) :
    (c.discoverProxyRoute net).timeoutSeconds = c.timeoutSeconds ∧
    (c.discoverProxyRoute net).tlsInsecureSkipVerify = c.tlsInsecureSkipVerify ∧
    (c.discoverProxyRoute net).serverURL = c.serverURL ∧
    (c.discoverProxyRoute net).bearerToken = c.bearerToken := by
  unfold ProxyClient.discoverProxyRoute
  cases net (discoveryRequest c.serverURL c.bearerToken) with
  | error e => exact ⟨rfl, rfl, rfl, rfl⟩
  | ok resp =>
    dsimp only
    split_ifs <;> exact ⟨rfl, rfl, rfl, rfl⟩

/-- discoverProxyRoute_fail shows every failing discovery outcome leaves
the route host unchanged. -/
theorem discoverProxyRoute_fail (c : ProxyClient) (net : Net)
    (h : (∃ e, net (discoveryRequest c.serverURL c.bearerToken) = Except.error e) ∨
      (∃ r, net (discoveryRequest c.serverURL c.bearerToken) = Except.ok r ∧
        r.statusCode ≠ 200) ∨
      (∃ r, net (discoveryRequest c.serverURL c.bearerToken) = Except.ok r ∧
        r.statusCode = 200 ∧ parseRouteHost r.body = "")) :
    (c.discoverProxyRoute net).proxyRouteHost = c.proxyRouteHost := by
  unfold ProxyClient.discoverProxyRoute
  rcases h with ⟨e, he⟩ | ⟨r, hr, hst⟩ | ⟨r, hr, hst, hparse⟩
  · rw [he]
  · rw [hr]
    dsimp only
    rw [if_pos hst]
  · rw [hr]
    dsimp only
    rw [if_neg (by rw [hst]; exact fun hcon => hcon rfl)]
    simp [hparse]

/-- C1: for every operation entry point — pods list in a namespace, pods
list in all namespaces, namespaces list, generic resource
list/get/create-or-update/delete, and pod logs — the routing decision is
Forward (not a local call) exactly when ACM mode is enabled, the proxy
handle is non-nil, and the arguments carry a present, non-empty string
cluster value; otherwise the operation delegates to the local Kubernetes
client; and the logs predicate is the same function as the shared
predicate. -/
theorem claim1_routing_forward_iff (p : ToolHandlerParams) (gvk : GroupVersionKind)
    (namespc name resource pod container : String) (options : ResourceListOptions)
    (tailLines : Int) :
    (p.ResourcesList gvk namespc options ≠ DispatchOutcome.localCall ↔ ForwardPred p) ∧
    (p.ResourcesGet gvk namespc name ≠ DispatchOutcome.localCall ↔ ForwardPred p) ∧
    (p.ResourcesCreateOrUpdate resource ≠ DispatchOutcome.localCall ↔ ForwardPred p) ∧
    (p.ResourcesDelete gvk namespc name ≠ DispatchOutcome.localCall ↔ ForwardPred p) ∧
    (p.PodsListInNamespace namespc options ≠ DispatchOutcome.localCall ↔ ForwardPred p) ∧
    (p.PodsListInAllNamespaces options ≠ DispatchOutcome.localCall ↔ ForwardPred p) ∧
    (p.NamespacesList options ≠ DispatchOutcome.localCall ↔ ForwardPred p) ∧
    (p.PodsLog namespc pod container tailLines ≠ DispatchOutcome.localCall ↔ ForwardPred p) ∧
    ShouldUseACMProxyForLogs p = ShouldUseACMProxy p := by
  refine ⟨?_, ?_, ?_, ?_, ?_, ?_, ?_, ?_, rfl⟩
  · constructor
    · intro hne
      rcases hsu : ShouldUseACMProxy p with ⟨c, b⟩
      cases b
      · exact absurd (by unfold ToolHandlerParams.ResourcesList; rw [hsu]) hne
      · exact shouldUse_eq_true_elim p c hsu
    · intro hfp
      obtain ⟨c, hsu⟩ := forwardPred_shouldUse p hfp
      unfold ToolHandlerParams.ResourcesList
      rw [hsu]
      simp [ToolHandlerParams.routeResourcesListThroughProxy]
  · constructor
    · intro hne
      rcases hsu : ShouldUseACMProxy p with ⟨c, b⟩
      cases b
      · exact absurd (by unfold ToolHandlerParams.ResourcesGet; rw [hsu]) hne
      · exact shouldUse_eq_true_elim p c hsu
    · intro hfp
      obtain ⟨c, hsu⟩ := forwardPred_shouldUse p hfp
      unfold ToolHandlerParams.ResourcesGet
      rw [hsu]
      simp [ToolHandlerParams.routeResourcesGetThroughProxy]
  · constructor
    · intro hne
      rcases hsu : ShouldUseACMProxy p with ⟨c, b⟩
      cases b
      · exact absurd (by unfold ToolHandlerParams.ResourcesCreateOrUpdate; rw [hsu]) hne
      · exact shouldUse_eq_true_elim p c hsu
    · intro hfp
      obtain ⟨c, hsu⟩ := forwardPred_shouldUse p hfp
      unfold ToolHandlerParams.ResourcesCreateOrUpdate
      rw [hsu]
      simp [ToolHandlerParams.routeResourcesCreateOrUpdateThroughProxy]
  · constructor
    · intro hne
      rcases hsu : ShouldUseACMProxy p with ⟨c, b⟩
      cases b
      · exact absurd (by unfold ToolHandlerParams.ResourcesDelete; rw [hsu]) hne
      · exact shouldUse_eq_true_elim p c hsu
    · intro hfp
      obtain ⟨c, hsu⟩ := forwardPred_shouldUse p hfp
      unfold ToolHandlerParams.ResourcesDelete
      rw [hsu]
      simp [ToolHandlerParams.routeResourcesDeleteThroughProxy]
  · constructor
    · intro hne
      rcases hsu : ShouldUseACMProxy p with ⟨c, b⟩
      cases b
      · exact absurd (by unfold ToolHandlerParams.PodsListInNamespace; rw [hsu]) hne
      · exact shouldUse_eq_true_elim p c hsu
    · intro hfp
      obtain ⟨c, hsu⟩ := forwardPred_shouldUse p hfp
      unfold ToolHandlerParams.PodsListInNamespace
      rw [hsu]
      simp [ToolHandlerParams.routePodsListInNamespaceThroughProxy]
  · constructor
    · intro hne
      rcases hsu : ShouldUseACMProxy p with ⟨c, b⟩
      cases b
      · exact absurd (by unfold ToolHandlerParams.PodsListInAllNamespaces; rw [hsu]) hne
      · exact shouldUse_eq_true_elim p c hsu
    · intro hfp
      obtain ⟨c, hsu⟩ := forwardPred_shouldUse p hfp
      unfold ToolHandlerParams.PodsListInAllNamespaces
      rw [hsu]
      simp [ToolHandlerParams.routePodsListInAllNamespacesThroughProxy]
  · constructor
    · intro hne
      rcases hsu : ShouldUseACMProxy p with ⟨c, b⟩
      cases b
      · exact absurd (by unfold ToolHandlerParams.NamespacesList; rw [hsu]) hne
      · exact shouldUse_eq_true_elim p c hsu
    · intro hfp
      obtain ⟨c, hsu⟩ := forwardPred_shouldUse p hfp
      unfold ToolHandlerParams.NamespacesList
      rw [hsu]
      simp [ToolHandlerParams.routeNamespacesListThroughProxy]
  · constructor
    · intro hne
      rcases hsu : ShouldUseACMProxy p with ⟨c, b⟩
      cases b
      · refine absurd ?_ hne
        unfold ToolHandlerParams.PodsLog
        rw [show ShouldUseACMProxyForLogs p = ShouldUseACMProxy p from rfl, hsu]
      · exact shouldUse_eq_true_elim p c hsu
    · intro hfp
      obtain ⟨c, hsu⟩ := forwardPred_shouldUse p hfp
      unfold ToolHandlerParams.PodsLog
      rw [show ShouldUseACMProxyForLogs p = ShouldUseACMProxy p from rfl, hsu]
      simp

/-- C2: whenever the routing predicate selects Forward, create-or-update
and delete of generic resources return the explicit unsupported-over-tunnel
errors, do not delegate to the local client, and hand no request to the
tunnel. -/
theorem claim2_mutations_unsupported (p : ToolHandlerParams)
    (resource : String) (gvk : GroupVersionKind) (namespc name : String)
    (h : ForwardPred p) :
    p.ResourcesCreateOrUpdate resource =
      DispatchOutcome.errorOut "create/update operations via ACM proxy not yet implemented" ∧
    p.ResourcesDelete gvk namespc name =
      DispatchOutcome.errorOut "delete operations via ACM proxy not yet implemented" ∧
    p.ResourcesCreateOrUpdate resource ≠ DispatchOutcome.localCall ∧
    (∀ cluster path, p.ResourcesCreateOrUpdate resource ≠ DispatchOutcome.proxied cluster path) ∧
    p.ResourcesDelete gvk namespc name ≠ DispatchOutcome.localCall ∧
    (∀ cluster path, p.ResourcesDelete gvk namespc name ≠ DispatchOutcome.proxied cluster path) := by
  obtain ⟨c, hsu⟩ := forwardPred_shouldUse p h
  have hcu : p.ResourcesCreateOrUpdate resource =
      DispatchOutcome.errorOut "create/update operations via ACM proxy not yet implemented" := by
    unfold ToolHandlerParams.ResourcesCreateOrUpdate
    rw [hsu]
    rfl
  have hdel : p.ResourcesDelete gvk namespc name =
      DispatchOutcome.errorOut "delete operations via ACM proxy not yet implemented" := by
    unfold ToolHandlerParams.ResourcesDelete
    rw [hsu]
    rfl
  refine ⟨hcu, hdel, ?_, ?_, ?_, ?_⟩
  · rw [hcu]; simp
  · intro cluster path; rw [hcu]; simp
  · rw [hdel]; simp
  · intro cluster path; rw [hdel]; simp

/-- Witness for C2 at a concrete parameter record in ACM mode with a
configured proxy handle and cluster argument c1. -/
theorem claim2_mutations_unsupported_witness :
    sampleForwardParams.ResourcesCreateOrUpdate "res" =
      DispatchOutcome.errorOut "create/update operations via ACM proxy not yet implemented" ∧
    sampleForwardParams.ResourcesDelete ⟨"", "v1", "Pod"⟩ "ns" "p" =
      DispatchOutcome.errorOut "delete operations via ACM proxy not yet implemented" := by
  have h := claim2_mutations_unsupported sampleForwardParams "res" ⟨"", "v1", "Pod"⟩ "ns" "p"
    ⟨rfl, by simp [sampleForwardParams], "c1", rfl, by decide⟩
  exact ⟨h.1, h.2.1⟩

/-- C3: the tunnel-client constructor unconditionally disables TLS
certificate validation — for every server URL, bearer token, and network
outcome, the constructed client has InsecureSkipVerify set, and the
constructor offers no opt-in input that could leave validation strict. -/
theorem claim3_tls_verification_disabled (serverURL bearerToken : String) (net : Net) :
    (NewProxyClient serverURL bearerToken net).tlsInsecureSkipVerify = true ∧
    (NewProxyClient serverURL bearerToken net).timeoutSeconds = 30 := by
  unfold NewProxyClient
  have h := discoverProxyRoute_fields
    { timeoutSeconds := 30
      tlsInsecureSkipVerify := true
      serverURL := trimSuffixSlash serverURL
      bearerToken := bearerToken
      proxyRouteHost := "" } net
  exact ⟨h.2.1, h.1⟩

/-- C10: an argument map whose cluster key is bound to a non-string value
is treated exactly like an absent cluster argument: extraction answers the
empty string with false, every operation routes to the local client even in
ACM mode with a configured proxy handle, and no error outcome is
produced. -/
theorem claim10_non_string_cluster_routes_local (p : ToolHandlerParams) (v : GoValue)
    (pc : ProxyClient) (gvk : GroupVersionKind) (namespc name resource : String)
    (options : ResourceListOptions)
    (hmode : p.isACMMode = true)
    (hhandle : p.acmProxyClient = ACMHandle.proxy pc)
    (hlook : lookupArg p.args "cluster" = some v)
    (hnotstr : ∀ s, v ≠ GoValue.str s) :
    GetClusterParameter p = ("", false) ∧
    ShouldUseACMProxy p = ("", false) ∧
    p.ResourcesList gvk namespc options = DispatchOutcome.localCall ∧
    p.ResourcesGet gvk namespc name = DispatchOutcome.localCall ∧
    p.ResourcesCreateOrUpdate resource = DispatchOutcome.localCall ∧
    p.ResourcesDelete gvk namespc name = DispatchOutcome.localCall ∧
    p.PodsListInNamespace namespc options = DispatchOutcome.localCall ∧
    p.PodsListInAllNamespaces options = DispatchOutcome.localCall ∧
    p.NamespacesList options = DispatchOutcome.localCall := by
  have hget : GetClusterParameter p = ("", false) := by
    unfold GetClusterParameter
    rw [hlook]
    cases v with
    | str s => exact absurd rfl (hnotstr s)
    | num n => rfl
    | boolean b => rfl
    | obj fields => rfl
    | null => rfl
  have hsu : ShouldUseACMProxy p = ("", false) := by
    unfold ShouldUseACMProxy
    rw [hmode, hhandle]
    simpa using hget
  refine ⟨hget, hsu, ?_, ?_, ?_, ?_, ?_, ?_, ?_⟩
  · unfold ToolHandlerParams.ResourcesList; rw [hsu]
  · unfold ToolHandlerParams.ResourcesGet; rw [hsu]
  · unfold ToolHandlerParams.ResourcesCreateOrUpdate; rw [hsu]
  · unfold ToolHandlerParams.ResourcesDelete; rw [hsu]
  · unfold ToolHandlerParams.PodsListInNamespace; rw [hsu]
  · unfold ToolHandlerParams.PodsListInAllNamespaces; rw [hsu]
  · unfold ToolHandlerParams.NamespacesList; rw [hsu]

/-- Witness for C10 at a concrete parameter record whose cluster argument
is the number 42. -/
theorem claim10_non_string_cluster_routes_local_witness :
    GetClusterParameter sampleNonStringParams = ("", false) ∧
    sampleNonStringParams.ResourcesList ⟨"", "v1", "Pod"⟩ "ns" ⟨""⟩ =
      DispatchOutcome.localCall := by
  have h := claim10_non_string_cluster_routes_local sampleNonStringParams (GoValue.num 42)
    sampleProxyClient ⟨"", "v1", "Pod"⟩ "ns" "p" "res" ⟨""⟩ rfl rfl rfl
    (fun s hcon => GoValue.noConfusion hcon)
  exact ⟨h.1, h.2.2.1⟩

/-- Counterexample for C4: at the core-group pod list in namespace ns with
label selector a b, the code appends the selector verbatim while the claim
prescribes URL-encoding, so the built path differs from the claim path; and
for the out-of-table kind CronJob the code produces Cronjobs where the
claim prescribes the lower-cased cronjobs. -/
theorem claim4_path_counterexample :
    buildListPath ⟨"", "v1", "Pod"⟩ "ns" ⟨"a b"⟩ =
      "/api/v1/namespaces/ns/pods?labelSelector=a b" ∧
    claimListPath ⟨"", "v1", "Pod"⟩ "ns" ⟨"a b"⟩ =
      "/api/v1/namespaces/ns/pods?labelSelector=a%20b" ∧
    buildListPath ⟨"", "v1", "Pod"⟩ "ns" ⟨"a b"⟩ ≠
      claimListPath ⟨"", "v1", "Pod"⟩ "ns" ⟨"a b"⟩ ∧
    kindToResourceName "CronJob" = "Cronjobs" ∧
    claimResourceSegment "CronJob" = "cronjobs" := by
  refine ⟨by decide, by decide, by decide, by decide, by decide⟩

/-- C4 as amended: the built list and get paths equal the reference
definition with the group-dependent root, the optional namespace segment,
the fixed-table resource segment whose fallback keeps the first character
of the kind and lowercases later upper-case letters, the name segment, and
a labelSelector query parameter whose value is appended verbatim. -/
theorem claim4_amended_path_shape (gvk : GroupVersionKind) (namespc name : String)
    (options : ResourceListOptions) :
    buildListPath gvk namespc options = amendedListPath gvk namespc options ∧
    buildGetPath gvk namespc name = amendedGetPath gvk namespc name := by
  have hseg := kindToResourceName_eq_amended gvk.kind
  constructor
  · unfold buildListPath amendedListPath
    by_cases hg : gvk.group = "" <;> by_cases hn : namespc = "" <;>
      by_cases hs : options.labelSelector = "" <;>
      simp [hg, hn, hs, hseg, String.append_assoc, string_length_zero_iff]
  · unfold buildGetPath amendedGetPath
    by_cases hg : gvk.group = "" <;> by_cases hn : namespc = "" <;>
      simp [hg, hn, hseg, String.append_assoc, string_length_zero_iff]

/-- C8: route-host extraction is a raw substring search, and on a body
whose top-level spec member has no host field but whose nested substructure
does, it extracts the nested value instead of resolving Unresolved; the
claim-side field-scoped extraction answers none there, while both agree on
the well-formed body. -/
theorem claim8_nested_host_misextraction :
    parseRouteHost routeBodyGood = "proxy.example.com" ∧
    specExtractHost routeBodyGood = some "proxy.example.com" ∧
    parseRouteHost routeBodyNested = "evil.example.com" ∧
    specExtractHost routeBodyNested = none ∧
    parseRouteHost routeBodyNested ≠ "" := by
  refine ⟨by decide, by rfl, by decide, by rfl, by decide⟩

/-- Counterexample for C5: with the route host discovered as
proxy.example.com, the forwarded log request is issued against the hub
server URL under the clusterstatuses log scheme, not against
https://(resolvedHost)/(cluster), so its URL does not begin with the
claimed prefix. -/
theorem claim5_log_url_counterexample :
    (sampleProxyClient.buildProxyLogRequest "c1" "ns" "p" "ctr" 0).url =
      "https://hub.example.com/apis/proxy.open-cluster-management.io/v1beta1/namespaces/c1/clusterstatuses/c1/log/ns/p/ctr" ∧
    (sampleProxyClient.buildProxyLogRequest "c1" "ns" "p" "ctr" 0).url.toList.take
        ("https://proxy.example.com/c1".toList.length) ≠
      "https://proxy.example.com/c1".toList := by
  refine ⟨by rfl, by decide⟩

/-- C5 as amended: the generic forwarded request is issued on
https://(resolvedHost)/(cluster)(path) with a bearer Authorization header
and an application/json Accept header, while the forwarded log request
carries the bearer header and a text/plain Accept header but is issued
against the hub server URL under the clusterstatuses log path, not on the
discovered route host. -/
theorem claim5_amended_forward_requests (c : ProxyClient)
    (cluster apiPath namespc pod container : String) (tailLines : Int)
    (hroute : c.proxyRouteHost ≠ "")
    (hq : ((c.serverURL ++ ("/apis/proxy.open-cluster-management.io/v1beta1/namespaces/" ++
      cluster ++ "/clusterstatuses/" ++ cluster ++ "/log/" ++ namespc ++ "/" ++ pod ++ "/" ++
      container)).toList.contains '?') = false) :
    c.buildProxyRequest cluster apiPath = Except.ok
      { method := "GET"
        url := "https://" ++ c.proxyRouteHost ++ "/" ++ cluster ++ apiPath
        authorization := some ("Bearer " ++ c.bearerToken)
        accept := some "application/json"
        userAgent := some "kubernetes-mcp-server/acm-proxy" } ∧
    (c.buildProxyLogRequest cluster namespc pod container tailLines).authorization =
      some ("Bearer " ++ c.bearerToken) ∧
    (c.buildProxyLogRequest cluster namespc pod container tailLines).accept =
      some "text/plain" ∧
    (c.buildProxyLogRequest cluster namespc pod container tailLines).url =
      c.serverURL ++ ("/apis/proxy.open-cluster-management.io/v1beta1/namespaces/" ++ cluster ++
        "/clusterstatuses/" ++ cluster ++ "/log/" ++ namespc ++ "/" ++ pod ++ "/" ++ container) ++
        (if 0 < tailLines then "?tailLines=" ++ queryEscape (toString tailLines) else "") := by
  refine ⟨?_, rfl, rfl, buildProxyLogRequest_url c cluster namespc pod container tailLines hq⟩
  unfold ProxyClient.buildProxyRequest
  rw [if_neg hroute]

/-- Witness for C5 as amended at the concrete client with route host
proxy.example.com. -/
theorem claim5_amended_forward_requests_witness :
    sampleProxyClient.buildProxyRequest "c1" "/api/v1/pods" = Except.ok
      { method := "GET"
        url := "https://proxy.example.com/c1/api/v1/pods"
        authorization := some "Bearer tok"
        accept := some "application/json"
        userAgent := some "kubernetes-mcp-server/acm-proxy" } ∧
    (sampleProxyClient.buildProxyLogRequest "c1" "ns" "p" "ctr" 50).url =
      "https://hub.example.com/apis/proxy.open-cluster-management.io/v1beta1/namespaces/c1/clusterstatuses/c1/log/ns/p/ctr?tailLines=50" := by
  have h := claim5_amended_forward_requests sampleProxyClient "c1" "/api/v1/pods" "ns" "p" "ctr"
    50 (by decide) (by decide)
  exact ⟨by rw [h.1]; rfl, by rw [h.2.2.2]; rfl⟩

/-- Counterexample for C6: a response with the non-2xx status 304 and a
decodable JSON object body (one carrying a kind field, as
UnstructuredJSONScheme requires) is returned as a success by the pipeline
rather than as an error, because the code only treats statuses of 400 and
above as errors. -/
theorem claim6_redirect_status_counterexample :
    sampleForwardParams.makeProxyRequest
        (constNet ⟨304, "\x7b\"kind\":\"Status\"\x7d"⟩) "c1" "/api/v1/pods" =
      Except.ok (Json.obj [("kind", Json.str "Status")]) := by rfl

/-- C6 as amended: for a delivered response, a status of 400 or above makes
the pipeline fail with an error carrying the status code, the cluster name,
and the body (so a 404 yields an error containing 404 and the cluster
name), while a status below 400 whose body is not a single valid JSON
document makes the pipeline fail with a decode error rather than returning
a partially-populated object. -/
theorem claim6_amended_status_errors (p : ToolHandlerParams) (pc : ProxyClient) (net : Net)
    (cluster apiPath : String) (req : HttpRequest) (r : HttpResponse)
    (hp : p.acmProxyClient = ACMHandle.proxy pc)
    (hbuild : pc.buildProxyRequest cluster apiPath = Except.ok req)
    (hnet : net req = Except.ok r) :
    (400 ≤ r.statusCode →
      p.makeProxyRequest net cluster apiPath =
        Except.error ("ACM proxy request failed: " ++ ("ACM proxy returned " ++
          toString r.statusCode ++ " for cluster " ++ cluster ++ ": " ++ r.body))) ∧
    (r.statusCode < 400 → parseJsonDoc r.body = none →
      p.makeProxyRequest net cluster apiPath =
        Except.error ("failed to parse ACM proxy response: " ++ "invalid JSON")) := by
  constructor
  · intro h400
    have hcore : pc.proxyRequest net cluster apiPath =
        Except.error ("ACM proxy returned " ++ toString r.statusCode ++
          " for cluster " ++ cluster ++ ": " ++ r.body) := by
      unfold ProxyClient.proxyRequest
      rw [hbuild]
      dsimp only
      rw [hnet]
      dsimp only
      rw [if_pos h400]
    unfold ToolHandlerParams.makeProxyRequest
    rw [hp]
    simp [castProxyClient, hcore]
  · intro h400 hbad
    have hcore : pc.proxyRequest net cluster apiPath = Except.ok r := by
      unfold ProxyClient.proxyRequest
      rw [hbuild]
      dsimp only
      rw [hnet]
      dsimp only
      rw [if_neg (by omega)]
    unfold ToolHandlerParams.makeProxyRequest
    rw [hp]
    simp [castProxyClient, hcore, parseUnstructured, hbad]

/-- Witness for C6 as amended: a 404 with body not found yields the error
naming 404 and cluster c1; a 200 whose body is not valid JSON yields the
decode error. -/
theorem claim6_amended_status_errors_witness :
    sampleForwardParams.makeProxyRequest (constNet ⟨404, "not found"⟩) "c1" "/api/v1/pods" =
      Except.error
        "ACM proxy request failed: ACM proxy returned 404 for cluster c1: not found" ∧
    sampleForwardParams.makeProxyRequest (constNet ⟨200, "\x7bbad"⟩) "c1" "/api/v1/pods" =
      Except.error "failed to parse ACM proxy response: invalid JSON" := by
  have h404 := (claim6_amended_status_errors sampleForwardParams sampleProxyClient
    (constNet ⟨404, "not found"⟩) "c1" "/api/v1/pods"
    { method := "GET"
      url := "https://proxy.example.com/c1/api/v1/pods"
      authorization := some "Bearer tok"
      accept := some "application/json"
      userAgent := some "kubernetes-mcp-server/acm-proxy" }
    ⟨404, "not found"⟩ rfl (by rfl) (by rfl)).1 (by decide)
  have hbad := (claim6_amended_status_errors sampleForwardParams sampleProxyClient
    (constNet ⟨200, "\x7bbad"⟩) "c1" "/api/v1/pods"
    { method := "GET"
      url := "https://proxy.example.com/c1/api/v1/pods"
      authorization := some "Bearer tok"
      accept := some "application/json"
      userAgent := some "kubernetes-mcp-server/acm-proxy" }
    ⟨200, "\x7bbad"⟩ rfl (by rfl) (by rfl)).2 (by decide) (by rfl)
  exact ⟨by rw [h404]; rfl, by rw [hbad]; rfl⟩

/-- C7: every discovery outcome that is a network error, a non-200 status,
or a body with no extractable host leaves the route unresolved while
construction completes normally (the other client fields are populated and
no error is surfaced), the route-not-discovered error appears only when a
forward request is attempted on the unresolved route, and a client whose
route is resolved never produces that error. -/
theorem claim7_discovery_failure_deferred (serverURL bearerToken cluster apiPath : String)
    (net forwardNet : Net)
    (hfail : (∃ e, net (discoveryRequest (trimSuffixSlash serverURL) bearerToken) =
        Except.error e) ∨
      (∃ r, net (discoveryRequest (trimSuffixSlash serverURL) bearerToken) = Except.ok r ∧
        r.statusCode ≠ 200) ∨
      (∃ r, net (discoveryRequest (trimSuffixSlash serverURL) bearerToken) = Except.ok r ∧
        r.statusCode = 200 ∧ parseRouteHost r.body = "")) :
    (NewProxyClient serverURL bearerToken net).proxyRouteHost = "" ∧
    (NewProxyClient serverURL bearerToken net).serverURL = trimSuffixSlash serverURL ∧
    (NewProxyClient serverURL bearerToken net).bearerToken = bearerToken ∧
    (NewProxyClient serverURL bearerToken net).proxyRequest forwardNet cluster apiPath =
      Except.error
        "cluster-proxy route not discovered - ensure ACM cluster-proxy addon is installed" ∧
    (∀ c : ProxyClient, c.proxyRouteHost ≠ "" →
      c.buildProxyRequest cluster apiPath ≠
        Except.error
          "cluster-proxy route not discovered - ensure ACM cluster-proxy addon is installed") := by
  have hhost : (NewProxyClient serverURL bearerToken net).proxyRouteHost = "" := by
    unfold NewProxyClient
    exact discoverProxyRoute_fail _ net hfail
  have hfields := discoverProxyRoute_fields
    { timeoutSeconds := 30
      tlsInsecureSkipVerify := true
      serverURL := trimSuffixSlash serverURL
      bearerToken := bearerToken
      proxyRouteHost := "" } net
  refine ⟨hhost, hfields.2.2.1, hfields.2.2.2, ?_, ?_⟩
  · unfold ProxyClient.proxyRequest ProxyClient.buildProxyRequest
    rw [if_pos hhost]
  · intro c hc
    unfold ProxyClient.buildProxyRequest
    rw [if_neg hc]
    simp

/-- Witness for C7: discovery over a refusing network leaves the route
empty, and the forward attempt then fails with the deferred error. -/
theorem claim7_discovery_failure_deferred_witness :
    (NewProxyClient "https://hub.example.com" "tok" refusedNet).proxyRouteHost = "" ∧
    (NewProxyClient "https://hub.example.com" "tok" refusedNet).proxyRequest refusedNet
        "c1" "/api/v1/pods" =
      Except.error
        "cluster-proxy route not discovered - ensure ACM cluster-proxy addon is installed" := by
  have h := claim7_discovery_failure_deferred "https://hub.example.com" "tok" "c1"
    "/api/v1/pods" refusedNet refusedNet (Or.inl ⟨"connection refused", rfl⟩)
  exact ⟨h.1, h.2.2.2.1⟩

/-- C9: the forwarded log request follows the clusterstatuses log path
template under the pod namespace, pod name, and container, and the
tailLines query parameter is appended exactly when the requested tail count
is strictly positive. -/
theorem claim9_log_tail_lines (c : ProxyClient) (cluster namespc pod container : String)
    (tailLines : Int)
    (hq : ((c.serverURL ++ ("/apis/proxy.open-cluster-management.io/v1beta1/namespaces/" ++
      cluster ++ "/clusterstatuses/" ++ cluster ++ "/log/" ++ namespc ++ "/" ++ pod ++ "/" ++
      container)).toList.contains '?') = false) :
    (0 < tailLines →
      (c.buildProxyLogRequest cluster namespc pod container tailLines).url =
        c.serverURL ++ ("/apis/proxy.open-cluster-management.io/v1beta1/namespaces/" ++
          cluster ++ "/clusterstatuses/" ++ cluster ++ "/log/" ++ namespc ++ "/" ++ pod ++
          "/" ++ container) ++ ("?tailLines=" ++ queryEscape (toString tailLines))) ∧
    (tailLines ≤ 0 →
      (c.buildProxyLogRequest cluster namespc pod container tailLines).url =
        c.serverURL ++ ("/apis/proxy.open-cluster-management.io/v1beta1/namespaces/" ++
          cluster ++ "/clusterstatuses/" ++ cluster ++ "/log/" ++ namespc ++ "/" ++ pod ++
          "/" ++ container)) := by
  have h := buildProxyLogRequest_url c cluster namespc pod container tailLines hq
  constructor
  · intro ht
    rw [h, if_pos ht]
  · intro ht
    rw [h, if_neg (by omega)]
    simp

/-- Witness for C9 at the concrete client: a zero tail count yields the
bare log path while a tail count of fifty appends the tailLines
parameter. -/
theorem claim9_log_tail_lines_witness :
    (sampleProxyClient.buildProxyLogRequest "c1" "ns" "p" "ctr" 0).url =
      "https://hub.example.com/apis/proxy.open-cluster-management.io/v1beta1/namespaces/c1/clusterstatuses/c1/log/ns/p/ctr" ∧
    (sampleProxyClient.buildProxyLogRequest "c1" "ns" "p" "ctr" 50).url =
      "https://hub.example.com/apis/proxy.open-cluster-management.io/v1beta1/namespaces/c1/clusterstatuses/c1/log/ns/p/ctr?tailLines=50" := by
  have h0 := (claim9_log_tail_lines sampleProxyClient "c1" "ns" "p" "ctr" 0 (by decide)).2
    (by decide)
  have h50 := (claim9_log_tail_lines sampleProxyClient "c1" "ns" "p" "ctr" 50 (by decide)).1
    (by decide)
  exact ⟨by rw [h0]; rfl, by rw [h50]; rfl⟩
